import Mathlib

/-!
Verification of the two-party shared-expense ledger (`ExpenseCalculator` in
`script.js`).  The mutable class state (`this.expenses`) is embedded as an
explicit `List Expense` threaded through the operations; JavaScript numbers
are embedded as exact rationals (`ℚ`), with the `parseFloat`/`parseInt`
results modelled as `Option` values (`none` = `NaN`, i.e. a missing or
non-numeric field).  DOM reads in the handlers are modelled as explicit
input structures; DOM writes, notifications and persistence calls are side
effects outside the ledger state and are represented by the returned values
(e.g. the notification string of `deleteExpense`).
-/

namespace ExpenseCalc

/-- A calendar date, standing for the parsed value of a date string
(`new Date(s)` projected to year / month / day-of-month).  The JavaScript
0-based `getMonth()` convention is irrelevant here because dates are only
ever compared componentwise. -/
structure EDate where
  year : Int
  month : Int
  day : Int
deriving Repr, DecidableEq

/-- An expense record, as built by `handleAddExpense` / loaded from storage.
`sharathPercent` / `thejasPercent` are `Option Int` because a record coming
from storage may lack the field (`undefined`, embedded as `none`); the code
reads them through the truthiness default `expense.sharathPercent || 50`. -/
structure Expense where
  id : String
  description : String
  amount : ℚ
  paidBy : String
  date : EDate
  splitType : String
  sharathPercent : Option Int
  thejasPercent : Option Int
  category : String
  timestamp : String
deriving Repr, DecidableEq

/-- JavaScript truthiness default `v || 50` applied to a percent value:
`undefined`/`NaN` (embedded as `none`) and `0` are falsy and become `50`;
every other integer is kept.  This is the semantics of both
`expense.sharathPercent || 50` in `calculateBalances` and
`parseInt(...) || 50` in the custom-split branch of `handleAddExpense`. -/
def or50 : Option Int → Int
  | none => 50
  | some v => if v = 0 then 50 else v

/-- Predicate `subListOccurs need hay` decides whether `need` occurs as a contiguous
run inside `hay`; used to embed JavaScript `String.prototype.includes`. -/
def subListOccurs (need : List Char) : List Char → Bool
  | [] => need.isEmpty
  | c :: cs => need.isPrefixOf (c :: cs) || subListOccurs need cs

/-- Embedding of `desc.includes(sub)`. -/
def strIncludes (s sub : String) : Bool :=
  subListOccurs sub.toList s.toList

/-- Embedding of JavaScript `String.prototype.trim`: drop whitespace from
both ends (written over the character list so it evaluates inside the
kernel). -/
def jsTrim (s : String) : String :=
  ⟨((s.toList.dropWhile Char.isWhitespace).reverse.dropWhile Char.isWhitespace).reverse⟩

/-- Embedding of JavaScript `String.prototype.toLowerCase` (over the
character list, for kernel evaluation). -/
def jsToLower (s : String) : String :=
  ⟨s.toList.map Char.toLower⟩

/-- Function `getCategoryFromDescription` from `script.js`: lower-case the
description and return the first keyword category that matches. -/
def getCategoryFromDescription (description : String) : String :=
  let desc := jsToLower description
  if strIncludes desc "rent" then "rent"
  else if strIncludes desc "electric" || strIncludes desc "power" then "electricity"
  else if strIncludes desc "wifi" || strIncludes desc "internet" then "wifi"
  else if strIncludes desc "water" then "water"
  else if strIncludes desc "cook" || strIncludes desc "maid" then "cook"
  else if strIncludes desc "grocer" || strIncludes desc "food" || strIncludes desc "meal" then "groceries"
  else if strIncludes desc "transport" || strIncludes desc "uber" || strIncludes desc "auto" then "transport"
  else if strIncludes desc "medical" || strIncludes desc "doctor" || strIncludes desc "medicine" then "medical"
  else "other"

/-- The balance summary object returned by `calculateBalances`. -/
structure BalanceSummary where
  sharath : ℚ
  thejas : ℚ
  sharathPaid : ℚ
  thejasPaid : ℚ
  totalExpenses : ℚ
  sharathTotal : ℚ
  thejasTotal : ℚ
deriving Repr, DecidableEq

/-- One iteration of the `forEach` accumulation loop in `calculateBalances`.
The accumulator is `(sharathTotal, thejasTotal, sharathPaid, thejasPaid)`. -/
def calcStep (acc : ℚ × ℚ × ℚ × ℚ) (e : Expense) : ℚ × ℚ × ℚ × ℚ :=
  let amount := e.amount
  let sharathPercent : ℚ := (or50 e.sharathPercent : Int)
  let thejasPercent : ℚ := (or50 e.thejasPercent : Int)
  let sharathSplit := amount * sharathPercent / 100
  let thejasSplit := amount * thejasPercent / 100
  (acc.1 + sharathSplit, acc.2.1 + thejasSplit,
   acc.2.2.1 + (if e.paidBy = "sharath" then amount else 0),
   acc.2.2.2 + (if e.paidBy = "sharath" then 0 else amount))

/-- Function `calculateBalances` from `script.js`: accumulate each party's fair share
and the amounts each party paid, then report the nets and totals. -/
def calculateBalances (expenses : List Expense) : BalanceSummary :=
  let r := expenses.foldl calcStep (0, 0, 0, 0)
  { sharath := r.2.2.1 - r.1
    thejas := r.2.2.2 - r.2.1
    sharathPaid := r.2.2.1
    thejasPaid := r.2.2.2
    totalExpenses := r.1 + r.2.1
    sharathTotal := r.1
    thejasTotal := r.2.1 }

/-- Per-record fair share of party A (Sharath): `amount * percent / 100`
with the `|| 50` default, exactly as computed inside the loop of
`calculateBalances`. -/
def shareA (e : Expense) : ℚ := e.amount * ((or50 e.sharathPercent : Int) : ℚ) / 100

/-- Per-record fair share of party B (Thejas). -/
def shareB (e : Expense) : ℚ := e.amount * ((or50 e.thejasPercent : Int) : ℚ) / 100

/-- Per-record contribution to `sharathPaid`: the full amount when
`paidBy === 'sharath'`, else nothing. -/
def paidA (e : Expense) : ℚ := if e.paidBy = "sharath" then e.amount else 0

/-- Per-record contribution to `thejasPaid`: the code's `else` branch, i.e.
every record not paid by `'sharath'` counts fully toward Thejas. -/
def paidB (e : Expense) : ℚ := if e.paidBy = "sharath" then 0 else e.amount

/-- The settlement message chosen by `updateBalanceDisplay`, with the
rendered text abstracted to a tagged value carrying the displayed amount. -/
inductive Settlement where
  | settled
  | thejasOwesSharath (amt : ℚ)
  | sharathOwesThejas (amt : ℚ)
deriving Repr, DecidableEq

/-- The settlement branch of `updateBalanceDisplay`: tolerance `0.01` on
`|balances.sharath|`, then sign of `balances.sharath`. -/
def settlementMessage (balances : BalanceSummary) : Settlement :=
  if |balances.sharath| < 1 / 100 then Settlement.settled
  else if balances.sharath > 0 then Settlement.thejasOwesSharath balances.sharath
  else Settlement.sharathOwesThejas |balances.sharath|

/-- The add-expense form reads performed by `handleAddExpense`:
`description` is the raw input value (the code trims it), `amount` the
`parseFloat` result (`none` = `NaN`), `datePaid` the date input (`none` =
empty string, which is falsy), and the two percent fields the `parseInt`
results of the custom-split inputs. -/
structure AddForm where
  description : String
  amount : Option ℚ
  paidBy : String
  datePaid : Option EDate
  splitType : String
  sharathPercentField : Option Int
  thejasPercentField : Option Int
deriving Repr, DecidableEq

/-- The split-type if/else chain of `handleAddExpense`, resolving the stored
`(sharathPercent, thejasPercent)` pair.  Presets are keyed on
`paidBy === 'sharath'` versus everything else; `custom` applies
`parseInt(...) || 50` to each field; any other type keeps the `50/50`
initialisation. -/
def resolveSplit (splitType paidBy : String) (spField tpField : Option Int) : Int × Int :=
  if splitType = "60-40" then
    if paidBy = "sharath" then (60, 40) else (40, 60)
  else if splitType = "40-60" then
    if paidBy = "sharath" then (40, 60) else (60, 40)
  else if splitType = "70-30" then
    if paidBy = "sharath" then (70, 30) else (30, 70)
  else if splitType = "30-70" then
    if paidBy = "sharath" then (30, 70) else (70, 30)
  else if splitType = "custom" then
    (or50 spField, or50 tpField)
  else (50, 50)

/-- Outcome of `handleAddExpense`: either an early `return` after an
`alert` (the ledger argument is untouched), or the new ledger with the
fresh record prepended by `unshift`. -/
inductive AddResult where
  | rejected (message : String)
  | added (expenses : List Expense)
deriving Repr, DecidableEq

/-- Holds (`true`) exactly on the `rejected` outcome. -/
def isRejected : AddResult → Bool
  | AddResult.rejected _ => true
  | AddResult.added _ => false

/-- Function `handleAddExpense` from `script.js`.  `newId` and `ts` stand for the
`Date.now().toString()` id and the ISO creation timestamp.  The order of
checks follows the source: the custom-split percent-sum check fires inside
the split-type chain, before the `!description || !amount || !paidBy ||
!datePaid` falsy check; only then is the record built and prepended.
JavaScript falsiness: `!amount` holds for `NaN` (`none`) and `0`,
`!description` for the empty trimmed string, `!datePaid` for the empty
date value (`none`). -/
def handleAddExpense (form : AddForm) (expenses : List Expense)
    (newId ts : String) : AddResult :=
  let description := jsTrim form.description
  let resolved := resolveSplit form.splitType form.paidBy
    form.sharathPercentField form.thejasPercentField
  if form.splitType = "custom" ∧ resolved.1 + resolved.2 ≠ 100 then
    AddResult.rejected "Percentages must add up to 100%"
  else if description = "" ∨ form.amount = none ∨ form.amount = some 0 ∨
      form.paidBy = "" ∨ form.datePaid = none then
    AddResult.rejected "Please fill in all fields"
  else
    AddResult.added
      ({ id := newId
         description := description
         amount := form.amount.getD 0
         paidBy := form.paidBy
         date := form.datePaid.getD ⟨0, 0, 0⟩
         splitType := form.splitType
         sharathPercent := some resolved.1
         thejasPercent := some resolved.2
         category := getCategoryFromDescription description
         timestamp := ts } :: expenses)

/-- Function `deleteExpense` from `script.js`, after the caller's `confirm` gate:
filter out every record with the given id and show the (unconditional)
success notification.  There is no branch inspecting whether the id was
present. -/
def deleteExpense (expenses : List Expense) (id : String) : List Expense × String :=
  (expenses.filter (fun e => e.id != id),
   "Expense deleted! Remember to update the Google Sheet.")

/-- The current-month filter of `updateSummaryStats`: records whose date
has the same month and year as `today` (`new Date()`). -/
def monthExpenses (expenses : List Expense) (today : EDate) : List Expense :=
  expenses.filter (fun e => e.date.month == today.month && e.date.year == today.year)

/-- Value `monthTotal` in `updateSummaryStats`: `reduce((sum, e) => sum + e.amount, 0)`
over the current-month records. -/
def monthTotal (expenses : List Expense) (today : EDate) : ℚ :=
  (monthExpenses expenses today).foldl (fun sum e => sum + e.amount) 0

/-- Value `dailyAvg` in `updateSummaryStats`: the month total divided by
`new Date().getDate()`, i.e. the day-of-month of the reference date (the
variable is named `daysInMonth` in the source but holds `getDate()`). -/
def dailyAvg (expenses : List Expense) (today : EDate) : ℚ :=
  monthTotal expenses today / ((today.day : Int) : ℚ)

/-- A record whose percent fields are present, sum to `100`, and are both
non-zero — so the `|| 50` truthiness default in `calculateBalances` does not
fire and the stored percentages are the effective ones. -/
def validPercents (e : Expense) : Prop :=
  ∃ a b : Int, e.sharathPercent = some a ∧ e.thejasPercent = some b ∧
    a + b = 100 ∧ a ≠ 0 ∧ b ≠ 0

/-- The transformation of the settlement-symmetry property: swap the payer
between the two parties and replace the percent pair `(p, 100-p)` by the
complementary pair `(100-p, p)` (i.e. exchange the two percent fields). -/
def swapExpense (e : Expense) : Expense :=
  { e with paidBy := if e.paidBy = "sharath" then "thejas" else "sharath"
           sharathPercent := e.thejasPercent
           thejasPercent := e.sharathPercent }

/-- Hypothesis of the (amended) symmetry property: the payer is one of the
two parties and the percent pair has the form `(p, 100-p)` with both
components non-zero (present, so the `|| 50` default does not fire). -/
def twoPartyComplement (e : Expense) : Prop :=
  (e.paidBy = "sharath" ∨ e.paidBy = "thejas") ∧
  ∃ p : Int, e.sharathPercent = some p ∧ e.thejasPercent = some (100 - p) ∧
    p ≠ 0 ∧ p ≠ 100

/-- Concrete record with percent pair `(0, 100)`: the pair sums to `100`,
but `0` is falsy in JavaScript, so `calculateBalances` reads the Sharath
percentage as `50`. -/
def cexA : Expense :=
  { id := "1", description := "rent", amount := 100, paidBy := "thejas",
    date := ⟨2025, 9, 1⟩, splitType := "custom", sharathPercent := some 0,
    thejasPercent := some 100, category := "rent", timestamp := "t" }

/-- Concrete well-formed 50/50 record used to instantiate hypotheses. -/
def e5050 : Expense :=
  { id := "2", description := "wifi", amount := 80, paidBy := "sharath",
    date := ⟨2025, 9, 4⟩, splitType := "equal", sharathPercent := some 50,
    thejasPercent := some 50, category := "wifi", timestamp := "t" }

/-- A fully valid form except that the amount is negative. -/
def negForm : AddForm :=
  { description := "rent", amount := some (-5), paidBy := "sharath",
    datePaid := some ⟨2025, 9, 1⟩, splitType := "equal",
    sharathPercentField := none, thejasPercentField := none }

/-- The record `handleAddExpense` builds from `negForm`. -/
def negExp : Expense :=
  { id := "9", description := "rent", amount := -5, paidBy := "sharath",
    date := ⟨2025, 9, 1⟩, splitType := "equal", sharathPercent := some 50,
    thejasPercent := some 50, category := "rent", timestamp := "t" }

/-- A fully valid form except that the amount field did not parse
(`parseFloat` gave `NaN`, embedded as `none`). -/
def nanForm : AddForm :=
  { description := "rent", amount := none, paidBy := "sharath",
    datePaid := some ⟨2025, 9, 1⟩, splitType := "equal",
    sharathPercentField := none, thejasPercentField := none }

/-- A custom-split form supplying percentages `0` and `50` (sum `50`). -/
def zeroCustomForm : AddForm :=
  { description := "rent", amount := some 100, paidBy := "sharath",
    datePaid := some ⟨2025, 9, 1⟩, splitType := "custom",
    sharathPercentField := some 0, thejasPercentField := some 50 }

/-- The record `handleAddExpense` builds from `zeroCustomForm`: the supplied
`0` has been defaulted to `50`. -/
def zeroCustomExp : Expense :=
  { id := "9", description := "rent", amount := 100, paidBy := "sharath",
    date := ⟨2025, 9, 1⟩, splitType := "custom", sharathPercent := some 50,
    thejasPercent := some 50, category := "rent", timestamp := "t" }

/-- A custom-split form supplying percentages `70` and `20`. -/
def form7020 : AddForm :=
  { description := "rent", amount := some 100, paidBy := "sharath",
    datePaid := some ⟨2025, 9, 1⟩, splitType := "custom",
    sharathPercentField := some 70, thejasPercentField := some 20 }

/-- A custom-split form supplying percentages `0` and `100` (sum `100`). -/
def form0100 : AddForm :=
  { description := "rent", amount := some 100, paidBy := "sharath",
    datePaid := some ⟨2025, 9, 1⟩, splitType := "custom",
    sharathPercentField := some 0, thejasPercentField := some 100 }

/-- A custom-split form supplying percentages `100` and `0` (sum `100`). -/
def form1000 : AddForm :=
  { description := "rent", amount := some 100, paidBy := "sharath",
    datePaid := some ⟨2025, 9, 1⟩, splitType := "custom",
    sharathPercentField := some 100, thejasPercentField := some 0 }

/-- A valid `60-40` form whose payer is Thejas (party B). -/
def presetFormB6040 : AddForm :=
  { description := "rent", amount := some 100, paidBy := "thejas",
    datePaid := some ⟨2025, 9, 1⟩, splitType := "60-40",
    sharathPercentField := none, thejasPercentField := none }

/-- The record `handleAddExpense` builds from `presetFormB6040`: the payer
(Thejas) keeps `60`, Sharath absorbs `40`. -/
def presetExpB6040 : Expense :=
  { id := "1", description := "rent", amount := 100, paidBy := "thejas",
    date := ⟨2025, 9, 1⟩, splitType := "60-40", sharathPercent := some 40,
    thejasPercent := some 60, category := "rent", timestamp := "t" }

/-- A record with an unrecognized payer and a missing Sharath percentage. -/
def bobExp : Expense :=
  { id := "7", description := "water", amount := 40, paidBy := "bob",
    date := ⟨2025, 9, 2⟩, splitType := "equal", sharathPercent := none,
    thejasPercent := some 50, category := "water", timestamp := "t" }

/-- September record of amount `30`. -/
def exp30 : Expense :=
  { id := "3", description := "water", amount := 30, paidBy := "sharath",
    date := ⟨2025, 9, 3⟩, splitType := "equal", sharathPercent := some 50,
    thejasPercent := some 50, category := "water", timestamp := "t" }

/-- September record of amount `70`. -/
def exp70 : Expense :=
  { id := "4", description := "food", amount := 70, paidBy := "thejas",
    date := ⟨2025, 9, 25⟩, splitType := "equal", sharathPercent := some 50,
    thejasPercent := some 50, category := "groceries", timestamp := "t" }

/-- Reference date with day-of-month `10`, same month as `exp30`/`exp70`. -/
def refDate : EDate := ⟨2025, 9, 10⟩

/-- The accumulation loop of `calculateBalances`, characterised: each
component of the fold is the initial value plus the sum of the per-record
contributions. -/
theorem calc_foldl (l : List Expense) (init : ℚ × ℚ × ℚ × ℚ) :
    l.foldl calcStep init =
      (init.1 + (l.map shareA).sum, init.2.1 + (l.map shareB).sum,
       init.2.2.1 + (l.map paidA).sum, init.2.2.2 + (l.map paidB).sum) := by
  induction l generalizing init with
  | nil => simp
  | cons e t ih =>
    rw [List.foldl_cons, ih]
    simp only [calcStep, shareA, shareB, paidA, paidB, List.map_cons,
      List.sum_cons, Prod.mk.injEq]
    refine ⟨by ring, by ring, by ring, by ring⟩

/-- A left fold adding amounts is the initial value plus the amount sum. -/
theorem foldl_add_amount (l : List Expense) (init : ℚ) :
    l.foldl (fun sum e => sum + e.amount) init =
      init + (l.map Expense.amount).sum := by
  induction l generalizing init with
  | nil => simp
  | cons e t ih =>
    rw [List.foldl_cons, ih, List.map_cons, List.sum_cons]
    ring

/-- Net Sharath balance as paid-minus-share sums. -/
theorem calculateBalances_sharath (es : List Expense) :
    (calculateBalances es).sharath = (es.map paidA).sum - (es.map shareA).sum := by
  simp [calculateBalances, calc_foldl]

/-- Net Thejas balance as paid-minus-share sums. -/
theorem calculateBalances_thejas (es : List Expense) :
    (calculateBalances es).thejas = (es.map paidB).sum - (es.map shareB).sum := by
  simp [calculateBalances, calc_foldl]

/-- Total paid by Sharath as a sum of per-record contributions. -/
theorem calculateBalances_sharathPaid (es : List Expense) :
    (calculateBalances es).sharathPaid = (es.map paidA).sum := by
  simp [calculateBalances, calc_foldl]

/-- Total paid by Thejas as a sum of per-record contributions. -/
theorem calculateBalances_thejasPaid (es : List Expense) :
    (calculateBalances es).thejasPaid = (es.map paidB).sum := by
  simp [calculateBalances, calc_foldl]

/-- Every record's amount is paid in full by exactly one side of the
`paidBy === 'sharath'` branch. -/
theorem sum_paid_eq (es : List Expense) :
    (es.map paidA).sum + (es.map paidB).sum = (es.map Expense.amount).sum := by
  induction es with
  | nil => simp
  | cons e t ih =>
    simp only [List.map_cons, List.sum_cons]
    have h : paidA e + paidB e = e.amount := by
      simp only [paidA, paidB]; split <;> ring
    linarith

/-- For a record with valid percents the two shares add up to the amount. -/
theorem share_add_of_valid (e : Expense) (h : validPercents e) :
    shareA e + shareB e = e.amount := by
  obtain ⟨a, b, ha, hb, hab, ha0, hb0⟩ := h
  have h100 : (a : ℚ) + (b : ℚ) = 100 := by exact_mod_cast hab
  simp only [shareA, shareB, ha, hb, or50, if_neg ha0, if_neg hb0]
  field_simp
  linear_combination e.amount * h100

/-- Under the valid-percents hypothesis the share sums equal the total. -/
theorem sum_share_eq (es : List Expense) (h : ∀ e ∈ es, validPercents e) :
    (es.map shareA).sum + (es.map shareB).sum = (es.map Expense.amount).sum := by
  induction es with
  | nil => simp
  | cons e t ih =>
    simp only [List.map_cons, List.sum_cons]
    have he := share_add_of_valid e (h e (by simp))
    have ht := ih (fun x hx => h x (by simp [hx]))
    linarith

/-- Net-contribution sign flip of a single record under `swapExpense`. -/
theorem swap_contrib (e : Expense) (h : twoPartyComplement e) :
    paidA (swapExpense e) - shareA (swapExpense e) = -(paidA e - shareA e) := by
  obtain ⟨hpb, p, hsp, htp, hp0, hp100⟩ := h
  have h100 : (100 : Int) - p ≠ 0 := by omega
  have h2 : shareA (swapExpense e) = e.amount * (100 - (p : ℚ)) / 100 := by
    simp only [shareA, swapExpense, htp, or50, if_neg h100]
    push_cast
    ring
  have h4 : shareA e = e.amount * (p : ℚ) / 100 := by
    simp [shareA, hsp, or50, hp0]
  rcases hpb with hA | hB
  · have h1 : paidA (swapExpense e) = 0 := by
      simp [paidA, swapExpense, hA]
    have h3 : paidA e = e.amount := by simp [paidA, hA]
    rw [h1, h2, h3, h4]; ring
  · have h1 : paidA (swapExpense e) = e.amount := by
      simp only [paidA, swapExpense, hB]
      norm_num
    have h3 : paidA e = 0 := by
      simp only [paidA, hB]
      rw [if_neg (by decide)]
    rw [h1, h2, h3, h4]; ring

/-- Summed version of `swap_contrib`. -/
theorem swap_net (es : List Expense) (h : ∀ e ∈ es, twoPartyComplement e) :
    ((es.map swapExpense).map paidA).sum - ((es.map swapExpense).map shareA).sum
      = -((es.map paidA).sum - (es.map shareA).sum) := by
  induction es with
  | nil => simp
  | cons e t ih =>
    simp only [List.map_cons, List.sum_cons]
    have he := swap_contrib e (h e (by simp))
    have ht := ih (fun x hx => h x (by simp [hx]))
    linarith

/-- The balance summary only depends on the head record through its four
per-record contributions. -/
theorem calculateBalances_cong_head (e q : Expense) (es : List Expense)
    (h1 : shareA e = shareA q) (h2 : shareB e = shareB q)
    (h3 : paidA e = paidA q) (h4 : paidB e = paidB q) :
    calculateBalances (e :: es) = calculateBalances (q :: es) := by
  simp only [calculateBalances, calc_foldl, List.map_cons, List.sum_cons,
    h1, h2, h3, h4]

/-- C1 counterexample: the record `cexA` has `sharathPercent = 0` and
`thejasPercent = 100`, which sum to `100`, yet `calculateBalances` on the
singleton ledger yields `netA + netB = -50` (the `0` is falsy, so the code
reads the Sharath percentage as `50`) — far outside the `1e-9` tolerance. -/
theorem conservation_cex :
    cexA.sharathPercent = some 0 ∧ cexA.thejasPercent = some 100 ∧
    (0 : Int) + 100 = 100 ∧
    (calculateBalances [cexA]).sharath + (calculateBalances [cexA]).thejas = -50 ∧
    ¬ |(calculateBalances [cexA]).sharath + (calculateBalances [cexA]).thejas|
        < 1 / 1000000000 := by
  refine ⟨rfl, rfl, by decide, ?_, ?_⟩ <;>
    norm_num +decide [calculateBalances, calcStep, cexA, or50]

/-- C1 (amended): for every ledger in which each record's percent pair is
present, sums to `100`, and has both components non-zero (so the JavaScript
`|| 50` truthiness default does not fire), the balance summary satisfies
`netA + netB = 0` exactly, regardless of order, amounts or `paidBy`
values. -/
theorem conservation_amended (es : List Expense) (h : ∀ e ∈ es, validPercents e) :
    (calculateBalances es).sharath + (calculateBalances es).thejas = 0 := by
  rw [calculateBalances_sharath, calculateBalances_thejas]
  have h1 := sum_paid_eq es
  have h2 := sum_share_eq es h
  linarith

/-- Witness for `conservation_amended` at the singleton ledger `[e5050]`. -/
theorem conservation_amended_witness :
    (calculateBalances [e5050]).sharath + (calculateBalances [e5050]).thejas = 0 :=
  conservation_amended [e5050] (by
    intro e he
    rw [List.mem_singleton] at he
    subst he
    exact ⟨50, 50, rfl, rfl, by norm_num, by norm_num, by norm_num⟩)

/-- C2: the split-type chain of `handleAddExpense` resolves each preset
payer-relatively — the payer's stored percentage is the first number of the
preset name, the other party's the second; in particular a `60-40` expense
paid by Thejas is stored as `(sharathPercent, thejasPercent) = (40, 60)`,
as the concrete add of `presetFormB6040` shows. -/
theorem preset_resolution (sp tp : Option Int) :
    resolveSplit "60-40" "sharath" sp tp = (60, 40) ∧
    resolveSplit "60-40" "thejas" sp tp = (40, 60) ∧
    resolveSplit "40-60" "sharath" sp tp = (40, 60) ∧
    resolveSplit "40-60" "thejas" sp tp = (60, 40) ∧
    resolveSplit "70-30" "sharath" sp tp = (70, 30) ∧
    resolveSplit "70-30" "thejas" sp tp = (30, 70) ∧
    resolveSplit "30-70" "sharath" sp tp = (30, 70) ∧
    resolveSplit "30-70" "thejas" sp tp = (70, 30) ∧
    handleAddExpense presetFormB6040 [] "1" "t" = AddResult.added [presetExpB6040] := by
  refine ⟨rfl, rfl, rfl, rfl, rfl, rfl, rfl, rfl, by decide⟩

/-- C3 counterexample: the custom form supplying percentages `0` and `50`
(sum `50`, not `100`) is NOT rejected: the falsy `0` is defaulted to `50`
before the sum check, the check sees `50 + 50 = 100`, and the record is
inserted. -/
theorem custom_sum_cex :
    zeroCustomForm.sharathPercentField = some 0 ∧
    zeroCustomForm.thejasPercentField = some 50 ∧
    (0 : Int) + 50 ≠ 100 ∧
    handleAddExpense zeroCustomForm [] "9" "t" = AddResult.added [zeroCustomExp] := by
  refine ⟨rfl, rfl, by decide, by decide⟩

/-- C3 (amended): a custom-split add whose percentages — after the
JavaScript `parseInt(...) || 50` defaulting of missing/zero values — do not
sum to `100` is rejected with the percent validation error and no record is
inserted; in particular supplying `70` and `20` is rejected. -/
theorem custom_sum_amended (form : AddForm) (es : List Expense) (newId ts : String)
    (hc : form.splitType = "custom")
    (hsum : or50 form.sharathPercentField + or50 form.thejasPercentField ≠ 100) :
    handleAddExpense form es newId ts =
      AddResult.rejected "Percentages must add up to 100%" := by
  have hr : resolveSplit form.splitType form.paidBy
      form.sharathPercentField form.thejasPercentField
      = (or50 form.sharathPercentField, or50 form.thejasPercentField) := by
    rw [hc]; rfl
  simp only [handleAddExpense, hr]
  rw [if_pos ⟨hc, hsum⟩]

/-- Witness for `custom_sum_amended`: the spec's `70`/`20` scenario. -/
theorem custom_sum_amended_witness :
    handleAddExpense form7020 [] "1" "t" =
      AddResult.rejected "Percentages must add up to 100%" :=
  custom_sum_amended form7020 [] "1" "t" rfl (by decide)

/-- C4 counterexample: the fully valid form with amount `-5` passes the
falsy check `!amount` (only `NaN` and `0` are falsy) and the negative-amount
record is inserted, so the operation does not validate positivity. -/
theorem amount_validation_cex :
    negForm.amount = some (-5) ∧ (-5 : ℚ) < 0 ∧
    handleAddExpense negForm [] "9" "t" = AddResult.added [negExp] ∧
    negExp.amount = -5 := by
  refine ⟨rfl, by norm_num, by decide, rfl⟩

/-- C4 (amended): the amount check of `handleAddExpense` is the falsy test
`!amount`: an amount that is `NaN` (missing/non-numeric, embedded `none`)
or `0` is always rejected with a validation alert before any mutation;
negative (and any other non-zero) amounts pass the check. -/
theorem amount_validation_amended (form : AddForm) (es : List Expense)
    (newId ts : String) (h : form.amount = none ∨ form.amount = some 0) :
    isRejected (handleAddExpense form es newId ts) = true := by
  simp only [handleAddExpense]
  split
  · rfl
  · split
    · rfl
    · rename_i h2
      cases h with
      | inl h => exact absurd (Or.inr (Or.inl h)) h2
      | inr h => exact absurd (Or.inr (Or.inr (Or.inl h))) h2

/-- Witness for `amount_validation_amended` at the `NaN`-amount form. -/
theorem amount_validation_amended_witness :
    isRejected (handleAddExpense nanForm [] "1" "t") = true :=
  amount_validation_amended nanForm [] "1" "t" (Or.inl rfl)

/-- C5 counterexample: deleting an id absent from the ledger leaves the
ledger unchanged but completes silently with the unconditional success
notification — no NotFound error exists anywhere in `deleteExpense`. -/
theorem delete_absent_cex :
    deleteExpense [cexA] "2" =
      ([cexA], "Expense deleted! Remember to update the Google Sheet.") := by
  decide

/-- C5 (amended): `deleteExpense` with an absent id leaves the ledger
unchanged and still reports the success notification (it never reports
NotFound); with a present id it removes exactly the records bearing that id
and keeps every other record. -/
theorem delete_amended (es : List Expense) (id : String) :
    ((∀ e ∈ es, e.id ≠ id) →
      deleteExpense es id =
        (es, "Expense deleted! Remember to update the Google Sheet.")) ∧
    (∀ e ∈ es, (e ∈ (deleteExpense es id).1 ↔ e.id ≠ id)) := by
  constructor
  · intro h
    simp only [deleteExpense, Prod.mk.injEq, and_true]
    exact List.filter_eq_self.mpr (fun a ha => by simpa using h a ha)
  · intro e he
    simp [deleteExpense, List.mem_filter, he]

/-- Witness for `delete_amended` at a singleton ledger and absent id. -/
theorem delete_amended_witness :
    deleteExpense [cexA] "3" =
      ([cexA], "Expense deleted! Remember to update the Google Sheet.") :=
  (delete_amended [cexA] "3").1 (by
    intro e he
    rw [List.mem_singleton] at he
    subst he
    decide)

/-- C6: the settlement message of `updateBalanceDisplay` follows exactly
the claimed rule on `netA`: inside the `0.01` tolerance it is the settled
message, above it with `netA > 0` Thejas owes Sharath `netA`, otherwise
Sharath owes Thejas `|netA|`. -/
theorem settlement_rule (es : List Expense) :
    (|(calculateBalances es).sharath| < 1 / 100 →
      settlementMessage (calculateBalances es) = Settlement.settled) ∧
    (¬ |(calculateBalances es).sharath| < 1 / 100 →
      (calculateBalances es).sharath > 0 →
      settlementMessage (calculateBalances es) =
        Settlement.thejasOwesSharath (calculateBalances es).sharath) ∧
    (¬ |(calculateBalances es).sharath| < 1 / 100 →
      ¬ (calculateBalances es).sharath > 0 →
      settlementMessage (calculateBalances es) =
        Settlement.sharathOwesThejas |(calculateBalances es).sharath|) := by
  refine ⟨fun h => ?_, fun h1 h2 => ?_, fun h1 h2 => ?_⟩
  · unfold settlementMessage
    rw [if_pos h]
  · unfold settlementMessage
    rw [if_neg h1, if_pos h2]
  · unfold settlementMessage
    rw [if_neg h1, if_neg h2]

/-- Witness for `settlement_rule`: the empty ledger is settled. -/
theorem settlement_rule_witness :
    settlementMessage (calculateBalances []) = Settlement.settled :=
  (settlement_rule []).1 (by norm_num [calculateBalances])

/-- C7 counterexample: for the record `cexA` (pair `(0, 100)`, paid by
Thejas) the original net is `-50` but the swapped-and-complemented ledger
has net `0`, not `50`: the falsy `0` breaks the symmetry. -/
theorem symmetry_cex :
    cexA.sharathPercent = some 0 ∧ cexA.thejasPercent = some (100 - 0) ∧
    (calculateBalances [cexA]).sharath = -50 ∧
    (calculateBalances [swapExpense cexA]).sharath = 0 ∧
    (calculateBalances [swapExpense cexA]).sharath ≠
      -(calculateBalances [cexA]).sharath := by
  refine ⟨rfl, rfl, ?_, ?_, ?_⟩ <;>
    norm_num +decide [calculateBalances, calcStep, cexA, swapExpense, or50]

/-- C7 (amended): for every ledger whose records are paid by one of the two
parties and carry a percent pair `(p, 100-p)` with both components non-zero
(so the `|| 50` default does not fire), swapping every `paidBy` and
exchanging the percent pairs negates `netA` exactly. -/
theorem symmetry_amended (es : List Expense) (h : ∀ e ∈ es, twoPartyComplement e) :
    (calculateBalances (es.map swapExpense)).sharath =
      -(calculateBalances es).sharath := by
  rw [calculateBalances_sharath, calculateBalances_sharath]
  exact swap_net es h

/-- Witness for `symmetry_amended` at the singleton ledger `[e5050]`. -/
theorem symmetry_amended_witness :
    (calculateBalances ([e5050].map swapExpense)).sharath =
      -(calculateBalances [e5050]).sharath :=
  symmetry_amended [e5050] (by
    intro e he
    rw [List.mem_singleton] at he
    subst he
    exact ⟨Or.inl rfl, 50, rfl, by decide, by decide, by decide⟩)

/-- C8: the month total of `updateSummaryStats` is the sum of the amounts
of exactly the records in the reference month-and-year, and the daily
average divides that total by the reference day-of-month; in particular
amounts `30` and `70` in the reference month with day-of-month `10` give
total `100` and average `10`. -/
theorem monthly_aggregation (es : List Expense) (today : EDate) :
    monthTotal es today =
      ((es.filter fun e =>
        e.date.month == today.month && e.date.year == today.year).map
          Expense.amount).sum ∧
    dailyAvg es today = monthTotal es today / ((today.day : Int) : ℚ) ∧
    monthTotal [exp30, exp70] refDate = 100 ∧
    dailyAvg [exp30, exp70] refDate = 10 := by
  refine ⟨?_, rfl, ?_, ?_⟩
  · rw [monthTotal, monthExpenses, foldl_add_amount]
    ring
  · norm_num +decide [monthTotal, monthExpenses, exp30, exp70, refDate,
      List.filter]
  · norm_num +decide [dailyAvg, monthTotal, monthExpenses, exp30, exp70,
      refDate, List.filter]

/-- C9: in the custom-split branch a percent field whose parsed value is
`0` or missing is defaulted to `50` before the sum check, so the pairs
`(0, 100)` and `(100, 0)` — which sum to `100` as supplied — become
`(50, 100)` and `(100, 50)`, fail the check, and are rejected. -/
theorem custom_zero_default :
    (∀ v : Option Int, (v = none ∨ v = some 0) → or50 v = 50) ∧
    or50 (some 0) + or50 (some 100) = 150 ∧
    or50 (some 100) + or50 (some 0) = 150 ∧
    (0 : Int) + 100 = 100 ∧
    handleAddExpense form0100 [] "1" "t" =
      AddResult.rejected "Percentages must add up to 100%" ∧
    handleAddExpense form1000 [] "1" "t" =
      AddResult.rejected "Percentages must add up to 100%" := by
  refine ⟨?_, by decide, by decide, by decide, by decide, by decide⟩
  intro v hv
  rcases hv with h | h <;> simp [h, or50]

/-- Witness for `custom_zero_default` at the missing field. -/
theorem custom_zero_default_witness : or50 none = 50 :=
  custom_zero_default.1 none (Or.inl rfl)

/-- C10: `calculateBalances` never inspects `paidBy` membership — any value
other than exactly `'sharath'` (such as `'bob'` or the empty string) puts
the full amount on `thejasPaid` and leaves `sharathPaid` unchanged — and a
missing-or-zero percent field makes the record behave exactly as if that
percentage were `50`; the computation is total on all such records. -/
theorem balances_unchecked (e : Expense) (es : List Expense) :
    (e.paidBy ≠ "sharath" →
      (calculateBalances (e :: es)).thejasPaid =
        e.amount + (calculateBalances es).thejasPaid ∧
      (calculateBalances (e :: es)).sharathPaid =
        (calculateBalances es).sharathPaid) ∧
    ((e.sharathPercent = none ∨ e.sharathPercent = some 0) →
      calculateBalances (e :: es) =
        calculateBalances ({ e with sharathPercent := some 50 } :: es)) ∧
    ((e.thejasPercent = none ∨ e.thejasPercent = some 0) →
      calculateBalances (e :: es) =
        calculateBalances ({ e with thejasPercent := some 50 } :: es)) := by
  refine ⟨fun h => ?_, fun h => ?_, fun h => ?_⟩
  · constructor
    · rw [calculateBalances_thejasPaid, calculateBalances_thejasPaid,
        List.map_cons, List.sum_cons]
      have hb : paidB e = e.amount := by simp [paidB, h]
      rw [hb]
    · rw [calculateBalances_sharathPaid, calculateBalances_sharathPaid,
        List.map_cons, List.sum_cons]
      have ha : paidA e = 0 := by simp [paidA, h]
      rw [ha, zero_add]
  · apply calculateBalances_cong_head
    · rcases h with h | h <;> simp [shareA, or50, h]
    · rfl
    · rfl
    · rfl
  · apply calculateBalances_cong_head
    · rfl
    · rcases h with h | h <;> simp [shareB, or50, h]
    · rfl
    · rfl

/-- Witness for `balances_unchecked` at `bobExp` (payer `'bob'`, missing
Sharath percent). -/
theorem balances_unchecked_witness :
    ((calculateBalances [bobExp]).thejasPaid =
        bobExp.amount + (calculateBalances []).thejasPaid ∧
      (calculateBalances [bobExp]).sharathPaid =
        (calculateBalances []).sharathPaid) ∧
    calculateBalances [bobExp] =
      calculateBalances [{ bobExp with sharathPercent := some 50 }] :=
  ⟨(balances_unchecked bobExp []).1 (by decide),
   (balances_unchecked bobExp []).2.1 (Or.inl rfl)⟩

end ExpenseCalc
